import Mathlib

/-!
Verification of the dataset-generator core: a shallow embedding of the
Exponential Quality Projection Engine (`src/lib/dataset-formats.ts`,
`ExponentialQualityService`) and of the generation-orchestrator hook
(`src/hooks/useDatasetGenerator.ts`), together with proofs of the
specified properties.  JavaScript numbers are modelled as real numbers,
integer-valued quantities produced by `Math.floor` and `Math.ceil` as
integers, and the React component state as an explicit state type with
one transition function per callback, taking the outcome of the awaited
RPC as a parameter.
-/

/-! ## Quality Projection Engine -/

/-- Result record of `calculateQualityMetrics`. -/
structure QualityMetrics where
  averageScore : ℝ
  improvementRate : ℝ
  feedbackCycles : ℤ
  compoundingFactor : ℝ
  projectedFinalQuality : ℝ

/-- Result record of `analyzeExponentialGrowth` for one candidate batch size. -/
structure BatchSizeAnalysis where
  batchSize : ℝ
  totalBatches : ℤ
  qualityMetrics : QualityMetrics
  totalQualityValue : ℝ
  efficiencyScore : ℝ

/-- `ExponentialQualityService.calculateQualityAtBatch`: the core exponential
improvement formula.  `Math.floor` is `Int.floor`, `Math.log` is `Real.log`,
`Math.pow` with the integer exponent is `zpow`. -/
noncomputable def calculateQualityAtBatch (batchNumber batchSize : ℝ) : ℝ :=
  let baseQuality : ℝ := 0.6
  let feedbackCycles : ℤ := ⌊batchNumber / max 1 (batchSize / 10)⌋
  let improvementPerCycle : ℝ := 0.15
  let compoundingFactor : ℝ := min (0.05 * Real.log ((feedbackCycles : ℝ) + 1)) 0.3
  let exponentialGrowth : ℝ := baseQuality * (1 + improvementPerCycle) ^ feedbackCycles
  min (exponentialGrowth + compoundingFactor) 0.95

/-- `ExponentialQualityService.calculateQualityMetrics`. -/
noncomputable def calculateQualityMetrics (currentBatch batchSize totalBatches : ℝ) :
    QualityMetrics :=
  let feedbackCycles : ℤ := ⌊currentBatch / max 1 (batchSize / 10)⌋
  let currentQuality : ℝ := calculateQualityAtBatch currentBatch batchSize
  let finalQuality : ℝ := calculateQualityAtBatch totalBatches batchSize
  let improvementRate : ℝ :=
    if 0 < feedbackCycles then (currentQuality - 0.6) / (feedbackCycles : ℝ) else 0
  let compoundingFactor : ℝ := min (0.05 * Real.log ((feedbackCycles : ℝ) + 1)) 0.3
  { averageScore := currentQuality
    improvementRate := improvementRate
    feedbackCycles := feedbackCycles
    compoundingFactor := compoundingFactor
    projectedFinalQuality := finalQuality }

/-- `ExponentialQualityService.calculateTotalQualityValue`: the loop
`for (batch = 0; batch < totalBatches; batch++)` summing quality times
quantity. -/
noncomputable def calculateTotalQualityValue (totalBatches : ℤ) (batchSize : ℝ) : ℝ :=
  (Finset.range totalBatches.toNat).sum
    (fun batch => calculateQualityAtBatch (batch : ℝ) batchSize * batchSize)

/-- `ExponentialQualityService.calculateEfficiencyScore`. -/
noncomputable def calculateEfficiencyScore (batchSize : ℝ) (metrics : QualityMetrics) : ℝ :=
  let sizeEfficiency : ℝ := 1 / Real.log (batchSize + 1)
  let feedbackEfficiency : ℝ := (metrics.feedbackCycles : ℝ) * 0.1
  let qualityEfficiency : ℝ := metrics.projectedFinalQuality
  (sizeEfficiency + feedbackEfficiency + qualityEfficiency) / 3

/-- `ExponentialQualityService.analyzeExponentialGrowth` (the spec calls this
operation `analyzeBatchSizes`). -/
noncomputable def analyzeExponentialGrowth (totalEntries currentBatch : ℝ)
    (batchSizes : List ℝ) : List BatchSizeAnalysis :=
  batchSizes.map (fun batchSize =>
    let totalBatches : ℤ := ⌈totalEntries / batchSize⌉
    let qualityMetrics := calculateQualityMetrics currentBatch batchSize (totalBatches : ℝ)
    let totalQualityValue := calculateTotalQualityValue totalBatches batchSize
    let efficiencyScore := calculateEfficiencyScore batchSize qualityMetrics
    { batchSize := batchSize
      totalBatches := totalBatches
      qualityMetrics := qualityMetrics
      totalQualityValue := totalQualityValue
      efficiencyScore := efficiencyScore })

/-- The quality formula as a function of the feedback-cycle count alone:
`calculateQualityAtBatch` factors through it. -/
noncomputable def qualityOfCycles (k : ℤ) : ℝ :=
  min (0.6 * (1 + 0.15) ^ k + min (0.05 * Real.log ((k : ℝ) + 1)) 0.3) 0.95

lemma calculateQualityAtBatch_eq (bn bs : ℝ) :
    calculateQualityAtBatch bn bs = qualityOfCycles ⌊bn / max 1 (bs / 10)⌋ := rfl

lemma max_one_div_ten_pos (s : ℝ) : (0 : ℝ) < max 1 (s / 10) :=
  lt_of_lt_of_le one_pos (le_max_left 1 (s / 10))

lemma feedbackCycles_nonneg (bn bs : ℝ) (hb : 0 ≤ bn) :
    0 ≤ ⌊bn / max 1 (bs / 10)⌋ :=
  Int.floor_nonneg.mpr (div_nonneg hb (max_one_div_ten_pos bs).le)

lemma compounding_nonneg {k : ℤ} (hk : 0 ≤ k) :
    (0 : ℝ) ≤ min (0.05 * Real.log ((k : ℝ) + 1)) 0.3 := by
  have h0 : (0 : ℝ) ≤ (k : ℝ) := by exact_mod_cast hk
  refine le_min (mul_nonneg (by norm_num) (Real.log_nonneg (by linarith))) (by norm_num)

lemma qualityOfCycles_mono {k m : ℤ} (hk : 0 ≤ k) (hkm : k ≤ m) :
    qualityOfCycles k ≤ qualityOfCycles m := by
  unfold qualityOfCycles
  refine min_le_min (add_le_add ?_ (min_le_min ?_ le_rfl)) le_rfl
  · exact mul_le_mul_of_nonneg_left (zpow_le_zpow_right₀ (by norm_num) hkm) (by norm_num)
  · refine mul_le_mul_of_nonneg_left ?_ (by norm_num)
    have h0 : (0 : ℝ) ≤ (k : ℝ) := by exact_mod_cast hk
    have h1 : (k : ℝ) ≤ (m : ℝ) := by exact_mod_cast hkm
    exact Real.log_le_log (by linarith) (by linarith)

lemma qualityOfCycles_le_cap (k : ℤ) : qualityOfCycles k ≤ 0.95 :=
  min_le_right _ _

lemma base_le_qualityOfCycles {k : ℤ} (hk : 0 ≤ k) : 0.6 ≤ qualityOfCycles k := by
  unfold qualityOfCycles
  refine le_min ?_ (by norm_num)
  have hpow : (1 : ℝ) ≤ (1 + 0.15) ^ k := one_le_zpow₀ (by norm_num) hk
  have hcf := compounding_nonneg hk
  nlinarith

lemma qualityOfCycles_eq_cap {k : ℤ} (hk : 4 ≤ k) : qualityOfCycles k = 0.95 := by
  unfold qualityOfCycles
  refine min_eq_right ?_
  have hpow : (1 + 0.15 : ℝ) ^ (4 : ℤ) ≤ (1 + 0.15 : ℝ) ^ k :=
    zpow_le_zpow_right₀ (by norm_num) hk
  have h4 : (1 + 0.15 : ℝ) ^ (4 : ℤ) = 1.74900625 := by norm_num
  have hcf := compounding_nonneg (le_trans (by norm_num) hk)
  nlinarith

lemma qualityOfCycles_one_lt_cap : qualityOfCycles 1 < 0.95 := by
  unfold qualityOfCycles
  have hlog : Real.log 2 ≤ 1 := by
    have h := Real.log_le_sub_one_of_pos (show (0 : ℝ) < 2 by norm_num)
    linarith
  have hcast : ((1 : ℤ) : ℝ) + 1 = 2 := by norm_num
  rw [hcast, zpow_one]
  have hmin : min (0.05 * Real.log 2) 0.3 ≤ 0.05 * Real.log 2 := min_le_left _ _
  refine lt_of_le_of_lt (min_le_left _ _) ?_
  linarith

lemma calculateQualityMetrics_fc (c s t : ℝ) :
    (calculateQualityMetrics c s t).feedbackCycles = ⌊c / max 1 (s / 10)⌋ := rfl

lemma calculateQualityMetrics_pf (c s t : ℝ) :
    (calculateQualityMetrics c s t).projectedFinalQuality = calculateQualityAtBatch t s := rfl

lemma calculateQualityMetrics_fc_zero (s t : ℝ) :
    (calculateQualityMetrics 0 s t).feedbackCycles = 0 := by
  rw [calculateQualityMetrics_fc, zero_div, Int.floor_zero]

lemma projected_thousand_ten :
    calculateQualityAtBatch ((⌈(1000 : ℝ) / 10⌉ : ℤ) : ℝ) 10 = 0.95 := by
  have hceil : ⌈(1000 : ℝ) / 10⌉ = (100 : ℤ) := by
    rw [show (1000 : ℝ) / 10 = ((100 : ℤ) : ℝ) by norm_num, Int.ceil_intCast]
  rw [hceil, calculateQualityAtBatch_eq]
  have hmax : max (1 : ℝ) ((10 : ℝ) / 10) = 1 := by
    rw [show (10 : ℝ) / 10 = 1 by norm_num, max_self]
  rw [hmax, div_one, Int.floor_intCast]
  exact qualityOfCycles_eq_cap (by norm_num)

lemma projected_thousand_fifty :
    calculateQualityAtBatch ((⌈(1000 : ℝ) / 50⌉ : ℤ) : ℝ) 50 = 0.95 := by
  have hceil : ⌈(1000 : ℝ) / 50⌉ = (20 : ℤ) := by
    rw [show (1000 : ℝ) / 50 = ((20 : ℤ) : ℝ) by norm_num, Int.ceil_intCast]
  rw [hceil, calculateQualityAtBatch_eq]
  have hdiv : ((20 : ℤ) : ℝ) / max 1 ((50 : ℝ) / 10) = ((4 : ℤ) : ℝ) := by
    rw [max_eq_right (by norm_num : (1 : ℝ) ≤ 50 / 10)]
    push_cast
    norm_num
  rw [hdiv, Int.floor_intCast]
  exact qualityOfCycles_eq_cap (by norm_num)

lemma projected_thousand_hundred :
    calculateQualityAtBatch ((⌈(1000 : ℝ) / 100⌉ : ℤ) : ℝ) 100 < 0.95 := by
  have hceil : ⌈(1000 : ℝ) / 100⌉ = (10 : ℤ) := by
    rw [show (1000 : ℝ) / 100 = ((10 : ℤ) : ℝ) by norm_num, Int.ceil_intCast]
  rw [hceil, calculateQualityAtBatch_eq]
  have hdiv : ((10 : ℤ) : ℝ) / max 1 ((100 : ℝ) / 10) = ((1 : ℤ) : ℝ) := by
    rw [max_eq_right (by norm_num : (1 : ℝ) ≤ 100 / 10)]
    push_cast
    norm_num
  rw [hdiv, Int.floor_intCast]
  exact qualityOfCycles_one_lt_cap

/-- C1 counterexample: in `analyzeBatchSizes(1000, 0, [10,50,100])` the
projected final quality is NOT strictly increasing as the candidate size
decreases: the sizes 10 and 50 both reach the 0.95 cap, so the first strict
inequality fails. -/
theorem analyzeBatchSizes_thousand_counterexample :
    ¬ ((∀ a ∈ analyzeExponentialGrowth 1000 0 [10, 50, 100],
          a.qualityMetrics.feedbackCycles = 0) ∧
       List.Chain'
         (fun a₁ a₂ => a₂.qualityMetrics.projectedFinalQuality <
            a₁.qualityMetrics.projectedFinalQuality)
         (analyzeExponentialGrowth 1000 0 [10, 50, 100])) := by
  rintro ⟨-, hchain⟩
  simp only [analyzeExponentialGrowth, List.map_cons, List.map_nil,
    List.chain'_cons, calculateQualityMetrics_pf] at hchain
  obtain ⟨h12, -⟩ := hchain
  rw [projected_thousand_ten, projected_thousand_fifty] at h12
  exact lt_irrefl _ h12

/-- C1 amended: `analyzeBatchSizes(1000, 0, [10,50,100])` yields
`feedbackCycles = 0` for every candidate, and the projected final quality is
weakly increasing as the candidate size decreases: the sizes 10 and 50 both
reach the 0.95 cap (so they are equal), and both strictly exceed the value
for size 100. -/
theorem analyzeBatchSizes_thousand_amended :
    ∃ a₁ a₂ a₃ : BatchSizeAnalysis,
      analyzeExponentialGrowth 1000 0 [10, 50, 100] = [a₁, a₂, a₃] ∧
      a₁.qualityMetrics.feedbackCycles = 0 ∧
      a₂.qualityMetrics.feedbackCycles = 0 ∧
      a₃.qualityMetrics.feedbackCycles = 0 ∧
      a₁.qualityMetrics.projectedFinalQuality = 0.95 ∧
      a₂.qualityMetrics.projectedFinalQuality = 0.95 ∧
      a₃.qualityMetrics.projectedFinalQuality <
        a₂.qualityMetrics.projectedFinalQuality := by
  refine ⟨_, _, _, rfl, ?_, ?_, ?_, ?_, ?_, ?_⟩
  · exact calculateQualityMetrics_fc_zero 10 _
  · exact calculateQualityMetrics_fc_zero 50 _
  · exact calculateQualityMetrics_fc_zero 100 _
  · exact projected_thousand_ten
  · exact projected_thousand_fifty
  · show calculateQualityAtBatch _ 100 < calculateQualityAtBatch _ 50
    exact lt_of_lt_of_eq projected_thousand_hundred projected_thousand_fifty.symm

/-- C4: for batch sizes `1 ≤ s₁ < s₂` and a fixed batch number `b > 0`, the
smaller batch size never yields strictly lower projected quality. -/
theorem quality_antitone_in_batchSize (b s₁ s₂ : ℝ)
    (hb : 0 < b) (hs₁ : 1 ≤ s₁) (h₁₂ : s₁ < s₂) :
    calculateQualityAtBatch b s₂ ≤ calculateQualityAtBatch b s₁ := by
  rw [calculateQualityAtBatch_eq, calculateQualityAtBatch_eq]
  refine qualityOfCycles_mono (feedbackCycles_nonneg b s₂ hb.le) ?_
  refine Int.floor_le_floor ?_
  refine div_le_div_of_nonneg_left hb.le (max_one_div_ten_pos s₁) ?_
  exact max_le_max le_rfl ((div_le_div_iff_of_pos_right (by norm_num)).mpr h₁₂.le)

/-- C4 witness at `b = 1`, `s₁ = 1`, `s₂ = 2`. -/
theorem quality_antitone_in_batchSize_witness :
    (0 : ℝ) < 1 ∧ (1 : ℝ) ≤ 1 ∧ (1 : ℝ) < 2 ∧
    calculateQualityAtBatch 1 2 ≤ calculateQualityAtBatch 1 1 :=
  ⟨zero_lt_one, le_refl 1, one_lt_two,
    quality_antitone_in_batchSize 1 1 2 zero_lt_one (le_refl 1) one_lt_two⟩

/-- C5: for a fixed batch size `s ≥ 1`, the projected quality is monotonically
non-decreasing in the batch number over the batch-number domain `b ≥ 0`. -/
theorem quality_monotone_in_batchNumber (s b₁ b₂ : ℝ)
    (hs : 1 ≤ s) (hb₁ : 0 ≤ b₁) (h : b₁ ≤ b₂) :
    calculateQualityAtBatch b₁ s ≤ calculateQualityAtBatch b₂ s := by
  rw [calculateQualityAtBatch_eq, calculateQualityAtBatch_eq]
  refine qualityOfCycles_mono (feedbackCycles_nonneg b₁ s hb₁) ?_
  exact Int.floor_le_floor ((div_le_div_iff_of_pos_right (max_one_div_ten_pos s)).mpr h)

/-- C5 witness at `s = 1`, `b₁ = 0`, `b₂ = 1`. -/
theorem quality_monotone_in_batchNumber_witness :
    (1 : ℝ) ≤ 1 ∧ (0 : ℝ) ≤ 0 ∧ (0 : ℝ) ≤ 1 ∧
    calculateQualityAtBatch 0 1 ≤ calculateQualityAtBatch 1 1 :=
  ⟨le_refl 1, le_refl 0, zero_le_one,
    quality_monotone_in_batchNumber 1 0 1 (le_refl 1) (le_refl 0) zero_le_one⟩

/-- C6: for every batch number `b ≥ 0` and batch size `s ≥ 1`, the projected
quality lies in the closed interval `[0.6, 0.95]`. -/
theorem quality_bounds (b s : ℝ) (hb : 0 ≤ b) (hs : 1 ≤ s) :
    0.6 ≤ calculateQualityAtBatch b s ∧ calculateQualityAtBatch b s ≤ 0.95 := by
  rw [calculateQualityAtBatch_eq]
  exact ⟨base_le_qualityOfCycles (feedbackCycles_nonneg b s hb), qualityOfCycles_le_cap _⟩

/-- C6 witness at `b = 0`, `s = 1`. -/
theorem quality_bounds_witness :
    (0 : ℝ) ≤ 0 ∧ (1 : ℝ) ≤ 1 ∧
    (0.6 ≤ calculateQualityAtBatch 0 1 ∧ calculateQualityAtBatch 0 1 ≤ 0.95) :=
  ⟨le_refl 0, le_refl 1, quality_bounds 0 1 (le_refl 0) (le_refl 1)⟩

/-- C10: all batch sizes in `[1, 10]` produce identical projected quality at
every batch number `b ≥ 0`, because the divisor `max(1, batchSize/10)`
collapses to 1. -/
theorem quality_small_sizes_equal (b s₁ s₂ : ℝ) (hb : 0 ≤ b)
    (h₁ : 1 ≤ s₁) (h₁l : s₁ ≤ 10) (h₂ : 1 ≤ s₂) (h₂l : s₂ ≤ 10) :
    calculateQualityAtBatch b s₁ = calculateQualityAtBatch b s₂ := by
  rw [calculateQualityAtBatch_eq, calculateQualityAtBatch_eq]
  have e₁ : max (1 : ℝ) (s₁ / 10) = 1 :=
    max_eq_left ((div_le_one (by norm_num)).mpr h₁l)
  have e₂ : max (1 : ℝ) (s₂ / 10) = 1 :=
    max_eq_left ((div_le_one (by norm_num)).mpr h₂l)
  rw [e₁, e₂]

/-- C10 witness at `b = 3`, `s₁ = 1`, `s₂ = 10`. -/
theorem quality_small_sizes_equal_witness :
    (0 : ℝ) ≤ 3 ∧ (1 : ℝ) ≤ 1 ∧ (1 : ℝ) ≤ 10 ∧ (1 : ℝ) ≤ 10 ∧ (10 : ℝ) ≤ 10 ∧
    calculateQualityAtBatch 3 1 = calculateQualityAtBatch 3 10 :=
  ⟨by norm_num, le_refl 1, by norm_num, by norm_num, le_refl 10,
    quality_small_sizes_equal 3 1 10 (by norm_num) (le_refl 1) (by norm_num)
      (by norm_num) (le_refl 10)⟩

/-! ## Generation Orchestrator (`useDatasetGenerator`)

The React hook keeps a single `AppState` record and mutates it through
`setState` calls inside async callbacks.  Each callback is embedded as a
pure transition function on `AppState`; the outcome of the awaited backend
RPC (`invoke`) is passed as a parameter (`none`/`false` standing for a
rejected promise).  Transitions also report how many backend RPCs they
invoked where a claim depends on it. -/

/-- Source union type `"Ollama" | "OpenAI"`. -/
inductive Provider where
  | Ollama
  | OpenAI
deriving DecidableEq

/-- Model descriptor from `types/index.ts`. -/
structure Model where
  id : String
  name : String
  size : String
  modified : String
  provider : Provider
  capabilities : List String
deriving DecidableEq

/-- Dataset format tag from `types/index.ts`. -/
inductive DatasetFormat where
  | alpaca
  | conversation
  | chain_of_thought
  | preference_ranking
  | function_call
  | multi_round_dialogue
  | code_task
  | reflection
  | retrieval_embedding
  | reranking
deriving DecidableEq

/-- Generation configuration from `types/index.ts`. -/
structure GenerationConfig where
  target_entries : ℤ
  batch_size : ℤ
  fine_tuning_goal : String
  domain_context : String
  selected_model : Option String
  format : DatasetFormat
deriving DecidableEq

/-- Progress snapshot from `types/index.ts`; `status` is a plain string in
the source. -/
structure GenerationProgress where
  current_batch : ℤ
  total_batches : ℤ
  entries_generated : ℤ
  estimated_completion : String
  status : String
  generation_id : Option String
  concurrent_batches : ℤ
  entries_per_second : ℚ
  errors_count : ℤ
  retries_count : ℤ
deriving DecidableEq

/-- Wizard step union `"models" | "configuration" | "generating" | "export"`.
The source literal `"export"` is a reserved word in Lean, hence the
constructor name `exportStep`. -/
inductive Step where
  | models
  | configuration
  | generating
  | exportStep
deriving DecidableEq

/-- The hook state (`AppState` in `types/index.ts`): nullable fields become
options. -/
structure AppState where
  models : List Model
  selectedModel : String
  isDiscovering : Bool
  isGenerating : Bool
  progress : Option GenerationProgress
  currentStep : Step
  generationConfig : GenerationConfig
  error : Option String
  success : Option String
deriving DecidableEq

/-- Kernel-reducible model of JavaScript `String.prototype.trim`, which the
source uses only to test whether the objective text is blank: drop leading
and trailing whitespace characters. -/
def jsTrim (s : String) : String :=
  String.mk (((s.data.dropWhile Char.isWhitespace).reverse.dropWhile
    Char.isWhitespace).reverse)

/-- The initial state passed to `useState` at the top of
`useDatasetGenerator`. -/
def initialConfig : GenerationConfig :=
  { target_entries := 2000
    batch_size := 50
    fine_tuning_goal := ""
    domain_context := ""
    selected_model := none
    format := DatasetFormat.alpaca }

/-- Initial `AppState` of the hook. -/
def initialState : AppState :=
  { models := []
    selectedModel := ""
    isDiscovering := false
    isGenerating := false
    progress := none
    currentStep := Step.models
    generationConfig := initialConfig
    error := none
    success := none }

/-- The `startGeneration` callback.  `rpcOk` is the outcome of
`invoke("start_generation")`; the second component counts how many backend
RPCs were issued.  The guard mirrors
`!state.selectedModel || !state.generationConfig.fine_tuning_goal.trim()`,
where a JavaScript string is falsy exactly when it is empty. -/
def startGeneration (rpcOk : Bool) (s : AppState) : AppState × ℕ :=
  if s.selectedModel = "" ∨ jsTrim s.generationConfig.fine_tuning_goal = "" then
    ({ s with error := some ("Please select a model and provide a fine-tuning goal") }, 0)
  else
    let s₁ : AppState :=
      { s with isGenerating := true, currentStep := Step.generating,
               error := none, success := none }
    if rpcOk then
      ({ s₁ with success := some ("Generation started!") }, 1)
    else
      ({ s₁ with error := some ("Failed to start generation"),
                 isGenerating := false }, 1)

/-- One tick of the progress-polling `setInterval` body.  `fetch = none`
models a rejected `invoke("get_progress")`.  The interval itself exists
exactly while `state.isGenerating` is true (the effect keyed on
`state.isGenerating` clears it otherwise), so `isGenerating = false` after a
tick means polling stops. -/
def pollTick (fetch : Option GenerationProgress) (s : AppState) : AppState :=
  match fetch with
  | none =>
      { s with error := some ("Error fetching progress."), isGenerating := false }
  | some currentProgress =>
      let s₁ : AppState := { s with progress := some currentProgress }
      if currentProgress.status = "completed" then
        { s₁ with isGenerating := false, currentStep := Step.exportStep,
                  success := some ("Dataset generation completed!") }
      else s₁

/-- The `discoverModels` callback.  `fetch = none` models a rejected
`invoke("discover_models")`.  On success the hook replaces `models` and sets
`selectedModel` to `discoveredModels.length > 0 ? discoveredModels[0].id : ""`
unconditionally. -/
def discoverModels (fetch : Option (List Model)) (s : AppState) : AppState :=
  let s₁ : AppState := { s with isDiscovering := true, error := none, success := none }
  match fetch with
  | some discoveredModels =>
      { s₁ with models := discoveredModels,
                selectedModel := match discoveredModels with
                  | [] => ""
                  | m :: _ => m.id,
                isDiscovering := false }
  | none =>
      { s₁ with error := some ("Failed to discover models"), isDiscovering := false }

/-! ## Notification Channel

The hook clears alerts through a single effect keyed on
`[state.error, state.success]`: whenever either field changes, the previous
`setTimeout` is cancelled by the effect cleanup and, if either alert is
present, one new 5-unit timeout is armed that clears BOTH fields.  The state
is modelled with the two message slots plus the absolute firing time of the
single pending timeout. -/

structure NotifState where
  error : Option String
  success : Option String
  timer : Option ℕ
deriving DecidableEq

/-- Rerun of the alert-expiry effect after a `setState` that produced `new`
from `old` at time `now`: if neither alert field changed the effect does not
rerun and the pending timeout is kept; otherwise the old timeout is cancelled
and a fresh 5-unit one is armed when some alert is present. -/
def applyAlertEffect (now : ℕ) (old new : NotifState) : NotifState :=
  if old.error = new.error ∧ old.success = new.success then new
  else if new.error.isSome ∨ new.success.isSome then { new with timer := some (now + 5) }
  else { new with timer := none }

/-- Raise an error notification at time `now` (a `setState` writing `error`). -/
def raiseError (now : ℕ) (msg : String) (s : NotifState) : NotifState :=
  applyAlertEffect now s { s with error := some msg }

/-- Raise a success notification at time `now`. -/
def raiseSuccess (now : ℕ) (msg : String) (s : NotifState) : NotifState :=
  applyAlertEffect now s { s with success := some msg }

/-- Clear both alerts at time `now` (the `error: null, success: null` write of
`resetGeneration`). -/
def clearAlerts (now : ℕ) (s : NotifState) : NotifState :=
  applyAlertEffect now s { s with error := none, success := none }

/-- The pending timeout firing at time `now`: when armed for `now` it clears
both alert fields (and the subsequent effect rerun arms nothing). -/
def expire (now : ℕ) (s : NotifState) : NotifState :=
  if s.timer = some now then { error := none, success := none, timer := none } else s

/-- A state that passes the `startGeneration` guard, sitting on the
configuration step. -/
def configuredState : AppState :=
  { initialState with
      selectedModel := "m1"
      currentStep := Step.configuration
      generationConfig := { initialConfig with fine_tuning_goal := "g" } }

/-- A state with a generation in flight. -/
def generatingState : AppState :=
  { initialState with
      selectedModel := "m1"
      currentStep := Step.generating
      isGenerating := true
      generationConfig := { initialConfig with fine_tuning_goal := "g" } }

/-- A poll response whose status is the terminal value `failed`. -/
def failedProgress : GenerationProgress :=
  { current_batch := 1
    total_batches := 10
    entries_generated := 50
    estimated_completion := ""
    status := "failed"
    generation_id := none
    concurrent_batches := 1
    entries_per_second := 0
    errors_count := 1
    retries_count := 0 }

/-- C2 counterexample: when the start RPC rejects, the step does NOT revert
to the configuration step — the catch branch only writes `error` and
`isGenerating`, leaving `currentStep` at the generating step. -/
theorem startGeneration_failure_counterexample :
    ¬ ((startGeneration false configuredState).1.isGenerating = false ∧
       (startGeneration false configuredState).1.currentStep = Step.configuration ∧
       (startGeneration false configuredState).1.error =
         some ("Failed to start generation")) := by
  decide

/-- C2 amended: if the start RPC fails, the generating flag is cleared and an
Error notification is raised, but the step remains at the generating step
(it is not rolled back to configuration) and the progress handle is left
untouched. -/
theorem startGeneration_failure_amended (s : AppState)
    (h₁ : ¬ s.selectedModel = "")
    (h₂ : ¬ jsTrim s.generationConfig.fine_tuning_goal = "") :
    (startGeneration false s).1.isGenerating = false ∧
    (startGeneration false s).1.error = some ("Failed to start generation") ∧
    (startGeneration false s).1.currentStep = Step.generating ∧
    (startGeneration false s).1.progress = s.progress ∧
    (startGeneration false s).1.success = none := by
  have hcond : ¬ (s.selectedModel = "" ∨
      jsTrim s.generationConfig.fine_tuning_goal = "") := by
    rintro (h | h)
    · exact h₁ h
    · exact h₂ h
  unfold startGeneration
  rw [if_neg hcond]
  exact ⟨rfl, rfl, rfl, rfl, rfl⟩

/-- C2 witness: the amended statement instantiated at `configuredState`. -/
theorem startGeneration_failure_witness :
    (¬ configuredState.selectedModel = "") ∧
    (¬ jsTrim configuredState.generationConfig.fine_tuning_goal = "") ∧
    ((startGeneration false configuredState).1.isGenerating = false ∧
     (startGeneration false configuredState).1.error =
       some ("Failed to start generation") ∧
     (startGeneration false configuredState).1.currentStep = Step.generating ∧
     (startGeneration false configuredState).1.progress = configuredState.progress ∧
     (startGeneration false configuredState).1.success = none) :=
  ⟨by decide, by decide,
    startGeneration_failure_amended configuredState (by decide) (by decide)⟩

/-- C3 counterexample: a poll tick that observes `status = "failed"` neither
stops polling (the generating flag stays `true`, so the interval keeps
running) nor raises an Error notification. -/
theorem pollTick_failed_counterexample :
    ¬ ((pollTick (some failedProgress) generatingState).isGenerating = false ∧
       ¬ (pollTick (some failedProgress) generatingState).error = none) := by
  decide

/-- C3 amended: on a progress-fetch error the poller stops (the generating
flag is cleared, which clears the interval), raises an Error notification,
leaves the step unchanged and keeps the last observed progress; but a poll
response with `status = "failed"` is merged like any other non-completed
response — polling continues and no notification is raised. -/
theorem pollTick_amended (s : AppState) (p : GenerationProgress)
    (hp : p.status = "failed") :
    ((pollTick none s).isGenerating = false ∧
     (pollTick none s).error = some ("Error fetching progress.") ∧
     (pollTick none s).currentStep = s.currentStep ∧
     (pollTick none s).progress = s.progress) ∧
    ((pollTick (some p) s).isGenerating = s.isGenerating ∧
     (pollTick (some p) s).error = s.error ∧
     (pollTick (some p) s).success = s.success ∧
     (pollTick (some p) s).currentStep = s.currentStep ∧
     (pollTick (some p) s).progress = some p) := by
  refine ⟨⟨rfl, rfl, rfl, rfl⟩, ?_⟩
  have hne : ¬ p.status = "completed" := by
    rw [hp]
    decide
  simp only [pollTick]
  rw [if_neg hne]
  exact ⟨rfl, rfl, rfl, rfl, rfl⟩

/-- C3 witness: the amended statement instantiated at `generatingState` and
`failedProgress`. -/
theorem pollTick_amended_witness :
    failedProgress.status = "failed" ∧
    (((pollTick none generatingState).isGenerating = false ∧
      (pollTick none generatingState).error = some ("Error fetching progress.") ∧
      (pollTick none generatingState).currentStep = generatingState.currentStep ∧
      (pollTick none generatingState).progress = generatingState.progress) ∧
     ((pollTick (some failedProgress) generatingState).isGenerating =
        generatingState.isGenerating ∧
      (pollTick (some failedProgress) generatingState).error = generatingState.error ∧
      (pollTick (some failedProgress) generatingState).success =
        generatingState.success ∧
      (pollTick (some failedProgress) generatingState).currentStep =
        generatingState.currentStep ∧
      (pollTick (some failedProgress) generatingState).progress =
        some failedProgress)) :=
  ⟨rfl, pollTick_amended generatingState failedProgress rfl⟩

/-- Two discovered models used as concrete discovery results. -/
def modelA : Model :=
  { id := "a", name := "Model A", size := "1B", modified := "",
    provider := Provider.Ollama, capabilities := [] }

/-- Second discovered model, whose id matches a prior selection. -/
def modelB : Model :=
  { id := "b", name := "Model B", size := "1B", modified := "",
    provider := Provider.Ollama, capabilities := [] }

/-- C7 counterexample: a model id that was selected before discovery and is
present in the newly discovered list is NOT preserved — the hook always
overwrites the selection with the first discovered model. -/
theorem discoverModels_counterexample :
    ({ initialState with selectedModel := "b" } : AppState).selectedModel = "b" ∧
    "b" ∈ [modelA, modelB].map Model.id ∧
    ¬ ((discoverModels (some [modelA, modelB])
          { initialState with selectedModel := "b" }).selectedModel = "b") := by
  decide

/-- C7 amended: on a successful discovery the hook replaces `models` and
unconditionally sets `selectedModel` to the first discovered model (or to the
empty string when the list is empty), regardless of any prior selection; on
failure `models` is left unchanged and an Error notification is raised. -/
theorem discoverModels_amended (s : AppState) (m : Model) (ms : List Model) :
    (discoverModels (some (m :: ms)) s).selectedModel = m.id ∧
    (discoverModels (some (m :: ms)) s).models = m :: ms ∧
    (discoverModels (some []) s).selectedModel = "" ∧
    (discoverModels none s).models = s.models ∧
    (discoverModels none s).error = some ("Failed to discover models") :=
  ⟨rfl, rfl, rfl, rfl, rfl⟩

/-- C8 counterexample: raising an error at time 0 and a success at time 2
moves the single shared expiry timer from 5 to 7, so the error message is
still visible when its own 5-unit timeout elapses — the two alerts do not
expire independently. -/
theorem alertTimers_counterexample :
    (raiseError 0 ("boom") { error := none, success := none, timer := none }).timer =
      some 5 ∧
    (raiseSuccess 2 ("ok")
        (raiseError 0 ("boom") { error := none, success := none, timer := none })).timer =
      some 7 ∧
    ¬ ((expire 5 (raiseSuccess 2 ("ok")
          (raiseError 0 ("boom")
            { error := none, success := none, timer := none }))).error = none) := by
  decide

/-- C8 amended: raising an Error and then a Success leaves both messages
visible simultaneously, and `clear` empties both slots immediately regardless
of any pending timer; but the two alerts share one expiry timer, re-armed
whenever either slot changes, and when it fires — 5 time units after the most
recent raise — both slots are emptied together. -/
theorem alertTimers_amended (e m : String) (t₁ t₂ : ℕ) :
    (raiseSuccess t₂ m (raiseError t₁ e
        { error := none, success := none, timer := none })).error = some e ∧
    (raiseSuccess t₂ m (raiseError t₁ e
        { error := none, success := none, timer := none })).success = some m ∧
    (raiseError t₁ e { error := none, success := none, timer := none }).timer =
      some (t₁ + 5) ∧
    (raiseSuccess t₂ m (raiseError t₁ e
        { error := none, success := none, timer := none })).timer = some (t₂ + 5) ∧
    expire (t₂ + 5) (raiseSuccess t₂ m (raiseError t₁ e
        { error := none, success := none, timer := none })) =
      { error := none, success := none, timer := none } ∧
    (∀ (s : NotifState) (t : ℕ),
      (clearAlerts t s).error = none ∧ (clearAlerts t s).success = none) := by
  have h₁ : raiseError t₁ e { error := none, success := none, timer := none } =
      { error := some e, success := none, timer := some (t₁ + 5) } := rfl
  have h₂ : raiseSuccess t₂ m
        { error := some e, success := none, timer := some (t₁ + 5) } =
      { error := some e, success := some m, timer := some (t₂ + 5) } := by
    simp [raiseSuccess, applyAlertEffect]
  have h₃ : expire (t₂ + 5)
        { error := some e, success := some m, timer := some (t₂ + 5) } =
      { error := none, success := none, timer := none } := by
    simp [expire]
  refine ⟨?_, ?_, ?_, ?_, ?_, ?_⟩
  · rw [h₁, h₂]
  · rw [h₁, h₂]
  · rw [h₁]
  · rw [h₁, h₂]
  · rw [h₁, h₂, h₃]
  · intro s t
    unfold clearAlerts applyAlertEffect
    split
    · exact ⟨rfl, rfl⟩
    · split
      · exact ⟨rfl, rfl⟩
      · exact ⟨rfl, rfl⟩

/-- C9: when the guard fails (no selected model, or blank trimmed objective),
`startGeneration` only writes the Error notification — every other field of
the state is unchanged — and performs no backend RPC. -/
theorem startGeneration_guard (s : AppState) (rpcOk : Bool)
    (h : s.selectedModel = "" ∨ jsTrim s.generationConfig.fine_tuning_goal = "") :
    (startGeneration rpcOk s).1 = { s with error := some ("Please select a model and provide a fine-tuning goal") } ∧
    (startGeneration rpcOk s).2 = 0 := by
  unfold startGeneration
  rw [if_pos h]
  exact ⟨rfl, rfl⟩

/-- C9 witness: the guard theorem instantiated at the initial state, whose
selected model is empty. -/
theorem startGeneration_guard_witness :
    (initialState.selectedModel = "" ∨
      jsTrim initialState.generationConfig.fine_tuning_goal = "") ∧
    ((startGeneration true initialState).1 = { initialState with error := some ("Please select a model and provide a fine-tuning goal") } ∧
     (startGeneration true initialState).2 = 0) :=
  ⟨Or.inl rfl, startGeneration_guard initialState true (Or.inl rfl)⟩
